import Mathlib

/-!
Verification of the pragatiaiengine evaluation-aggregation pipeline.

The Python sources are embedded shallowly:
* floats are modelled as rationals (every constant appearing in the code —
  1.0, 2.0, 3.0, 4.0, 5.0, 0.0, 0.5, 0.6, 0.7, 1.0, 20, 30, 40, 50, 60, 70, 80 —
  is exactly representable, and all the operations involved, max/min/compare
  and averaging, are monotone, so range facts transfer);
* Python dictionaries are modelled as association lists in insertion order;
* a fallible Python expression is modelled with Option, none standing for a
  raised exception.
-/

namespace Pragati

/-- Abstraction of a dynamically typed Python value by the only two
observations the embedded code makes of it: the result of float(v)
(some x when the conversion succeeds, none when it raises
ValueError/TypeError), and bool(v) (Python truthiness). -/
structure PyVal where
  toFloat : Option ℚ
  truthy : Bool
deriving DecidableEq, Repr

/-- An int/float value x: float(x) = x, bool(x) is x ≠ 0. -/
def pyNum (x : ℚ) : PyVal := ⟨some x, decide (x ≠ 0)⟩

/-- A non-empty string (or other truthy value) on which float(...) raises,
e.g. "not a number". -/
def pyBadStr : PyVal := ⟨none, true⟩

/-- Python None: float(None) raises TypeError, bool(None) = False. -/
def pyNone : PyVal := ⟨none, false⟩

/-- Clamping used by BaseValidationAgent.validate_output:
max(lo, min(hi, x)). -/
def clamp (lo hi x : ℚ) : ℚ := max lo (min hi x)

namespace BaseAgent

/-- The fields of the dict reached inside validate_output that the spec's
claims inspect (src/app/crew_ai_validation/base_agent.py lines 308-320).
A field is none when the corresponding key is absent, in which case
dict.get supplies the documented default. -/
structure RawEval where
  score : Option PyVal
  confidence_level : Option PyVal
  explanation : Option String
deriving DecidableEq, Repr

/-- The raw evaluator outputs validate_output distinguishes
(base_agent.py lines 294-307):
* dict r — output is already a dict, or a string whose embedded {...}
  block json.loads parses to the dict r;
* text tok expl — a string with no JSON block, handed to
  _parse_text_output: tok is the regex capture for the score
  (none when the regex finds no match), expl the joined first sentences;
* malformed — any output on which the dict access or json.loads raises
  (e.g. a list, or a string whose brace block is invalid JSON). -/
inductive RawOutput where
  | dict (r : RawEval)
  | text (tok : Option PyVal) (expl : String)
  | malformed
deriving DecidableEq, Repr

/-- The standardized evaluation built by validate_output
(base_agent.py lines 309-324): only the fields the claims mention. -/
structure Standardized where
  score : ℚ
  confidence_level : ℚ
  explanation : String
deriving DecidableEq, Repr

/-- BaseValidationAgent._create_fallback_result
(base_agent.py lines 355-366). -/
def create_fallback_result (sub_parameter : String) : Standardized :=
  { score := 3
    confidence_level := 1/2
    explanation := "Fallback evaluation for " ++ sub_parameter ++ " due to processing error" }

/-- BaseValidationAgent._parse_text_output (base_agent.py lines 332-353):
the score regex capture is float()ed — none models the raised exception
when the captured token (such as ".") is not a valid float literal. -/
def parse_text_output (sub_parameter : String) (tok : Option PyVal) (expl : String) :
    Option RawEval :=
  match tok with
  | none => some { score := some (pyNum 3), confidence_level := some (pyNum (6/10)),
                   explanation := some (if expl = "" then "Text-based evaluation for " ++ sub_parameter else expl) }
  | some v =>
    match v.toFloat with
    | some x => some { score := some (pyNum x), confidence_level := some (pyNum (6/10)),
                       explanation := some (if expl = "" then "Text-based evaluation for " ++ sub_parameter else expl) }
    | none => none

/-- The body of validate_output acting on a dict result
(base_agent.py lines 309-326): float(result.get("score", 3.0)) and
float(result.get("confidence_level", 0.7)), then clamping to [1,5] and
[0,1]. A failing float conversion (none) falls to the except branch. -/
def standardize (sub_parameter : String) (r : RawEval) : Standardized :=
  match (r.score.getD (pyNum 3)).toFloat, (r.confidence_level.getD (pyNum (7/10))).toFloat with
  | some s, some c =>
    { score := clamp 1 5 s
      confidence_level := clamp 0 1 c
      explanation := r.explanation.getD ("Evaluation completed for " ++ sub_parameter) }
  | some _, none => create_fallback_result sub_parameter
  | none, _ => create_fallback_result sub_parameter

/-- BaseValidationAgent.validate_output (base_agent.py lines 294-330):
every raised exception on any branch is caught and replaced by
_create_fallback_result. -/
def validate_output (sub_parameter : String) (o : RawOutput) : Standardized :=
  match o with
  | .dict r => standardize sub_parameter r
  | .text tok expl =>
    match parse_text_output sub_parameter tok expl with
    | some r => standardize sub_parameter r
    | none => create_fallback_result sub_parameter
  | .malformed => create_fallback_result sub_parameter

/-- An evaluator output is malformed when validate_output's try block
raises: the dict access itself raises, or a float() conversion of the
score or confidence field raises. -/
def malformedOutput : RawOutput → Prop
  | .dict r => (r.score.getD (pyNum 3)).toFloat = none ∨
               (r.confidence_level.getD (pyNum (7/10))).toFloat = none
  | .text tok _ => ∃ v, tok = some v ∧ v.toFloat = none
  | .malformed => True

end BaseAgent

namespace DataProcessor

/-- One conversation record as built by
AgentDataProcessor.extract_all_agent_conversations
(src/app/pdf_report_system/data_processor.py lines 69-82): the fields the
claims inspect. -/
structure Conv where
  cluster : String
  parameter : String
  sub_parameter : String
  score : ℚ
  strengths : List String
  weaknesses : List String
deriving DecidableEq, Repr

/-- The score coercion of extract_all_agent_conversations
(data_processor.py lines 63-67): scoreField is the first value present
among the keys assigned_score / assignedScore / score (none when all are
absent, in which case get_value supplies the default 0); then
score = float(score) if score else 0, with a raising float() (modelled by
toFloat = none) caught and replaced by 0. -/
def extract_score (scoreField : Option PyVal) : ℚ :=
  match scoreField with
  | none => 0
  | some v => if v.truthy then v.toFloat.getD 0 else 0

/-- The conversations of a given cluster, in order. -/
def cluster_members (convs : List Conv) (c : String) : List Conv :=
  convs.filter (fun conv => conv.cluster == c)

/-- AgentDataProcessor.calculate_cluster_scores
(data_processor.py lines 108-129): the loop accumulates, per distinct
cluster key, the sum of member scores and the member count, then divides;
so the dict maps each distinct cluster name to the plain arithmetic mean
of its members' scores. -/
def calculate_cluster_scores (convs : List Conv) : List (String × ℚ) :=
  ((convs.map (·.cluster)).dedup).map (fun c =>
    (c, ((cluster_members convs c).map (·.score)).sum / ((cluster_members convs c).length : ℚ)))

/-- Modelled from the spec: the spec's cluster-score formula
Σ(evaluation.score × evaluation.weight) / Σ(evaluation.weight) over the
cluster's members, the per-agent weight given by the registry assignment
w (the conversation records built by the source carry no weight field).
Stated for comparison with calculate_cluster_scores. -/
def cluster_score_spec (w : Conv → ℚ) (convs : List Conv) (c : String) : ℚ :=
  ((cluster_members convs c).map (fun x => x.score * w x)).sum /
    ((cluster_members convs c).map w).sum

/-- Modelled from the spec: the orchestrator that computes overall_score
is not under src; per spec sections 3 and 4.4 the overall score is the
cluster-weight weighted average of the cluster scores, here taken with
the equal default split over the cluster scores computed by the source's
calculate_cluster_scores. -/
def overall_score_spec (convs : List Conv) : ℚ :=
  ((calculate_cluster_scores convs).map Prod.snd).sum /
    ((calculate_cluster_scores convs).length : ℚ)

/-- AgentDataProcessor._get_severity (data_processor.py lines 163-170). -/
def get_severity (score : ℚ) : String :=
  if score < 30 then "Critical"
  else if score < 50 then "High"
  else "Moderate"

/-- AgentDataProcessor._get_status (data_processor.py lines 227-238). -/
def get_status (score : ℚ) : String :=
  if score ≥ 80 then "Excellent"
  else if score ≥ 60 then "Good"
  else if score ≥ 40 then "Moderate"
  else if score ≥ 20 then "Weak"
  else "Poor"

/-- A strength entry appended by extract_strengths_and_weaknesses
(data_processor.py lines 140-145). -/
structure StrengthItem where
  text : String
  cluster : String
  parameter : String
  score : ℚ
deriving DecidableEq, Repr

/-- A weakness entry appended by extract_strengths_and_weaknesses
(data_processor.py lines 150-156). -/
structure WeaknessItem where
  text : String
  cluster : String
  parameter : String
  score : ℚ
  severity : String
deriving DecidableEq, Repr

/-- The strength entries one conversation contributes
(data_processor.py lines 137-145): its strengths when score >= 70. -/
def conv_strengths (c : Conv) : List StrengthItem :=
  if c.score ≥ 70 then c.strengths.map (fun t => ⟨t, c.cluster, c.sub_parameter, c.score⟩)
  else []

/-- The weakness entries one conversation contributes
(data_processor.py lines 147-156): its weaknesses when score < 60, each
tagged with _get_severity of the score. -/
def conv_weaknesses (c : Conv) : List WeaknessItem :=
  if c.score < 60 then
    c.weaknesses.map (fun t => ⟨t, c.cluster, c.sub_parameter, c.score, get_severity c.score⟩)
  else []

/-- AgentDataProcessor.extract_strengths_and_weaknesses
(data_processor.py lines 131-161): collect over all conversations, then
sort strengths by score descending and weaknesses by score ascending
(Python's sorted is a stable sort, as is mergeSort). -/
def extract_strengths_and_weaknesses (convs : List Conv) :
    List StrengthItem × List WeaknessItem :=
  ((convs.flatMap conv_strengths).mergeSort (fun a b => decide (b.score ≤ a.score)),
   (convs.flatMap conv_weaknesses).mergeSort (fun a b => decide (a.score ≤ b.score)))

/-- The registry (conversations) of the C3 counterexample: one cluster
"X" with two members scoring 1 and 5. -/
def c3convs : List Conv :=
  [⟨"X", "p", "A", 1, [], []⟩, ⟨"X", "p", "B", 5, [], []⟩]

/-- Registry weights of the C3 counterexample: sub-parameter A weighs 3,
everything else 1. -/
def c3w (x : Conv) : ℚ := if x.sub_parameter == "A" then 3 else 1

/-- The C5 counterexample: a single conversation whose evaluation record
has no parseable score, so the extraction coerces its score to 0. -/
def c5convs : List Conv :=
  [⟨"Market Opportunity", "p", "Market Size", extract_score (some pyBadStr), [], []⟩]

/-- A one-conversation input with an in-range score, one strength and one
weakness, used to witness the strengths/weaknesses classification. -/
def c10convs : List Conv := [⟨"X", "p", "sp1", 3, ["s1"], ["w1"]⟩]

end DataProcessor

namespace Collaboration

/-- The per-agent data AgentCollaborationManager reads
(src/app/crew_ai_validation/base_agent.py lines 394-435): the registry
self.agents, a dict iterated in insertion order, modelled as a list. -/
structure AgentDef where
  agent_id : String
  sub_parameter : String
  dependencies : List String
deriving DecidableEq, Repr

/-- AgentCollaborationManager.get_execution_order
(base_agent.py lines 408-420): one pass over the registry splits it into
the agents with no dependencies followed by the agents with
dependencies — always exactly two batches. -/
def get_execution_order (agents : List AgentDef) : List (List String) :=
  [(agents.filter (fun a => a.dependencies.isEmpty)).map (·.agent_id),
   (agents.filter (fun a => !a.dependencies.isEmpty)).map (·.agent_id)]

/-- The batch in which an agent id executes: the index of the first batch
containing it. -/
def batchIndex (batches : List (List String)) (agent_id : String) : Option ℕ :=
  batches.findIdx? (fun b => b.contains agent_id)

/-- The normalization applied to both sides of the dependency match in
resolve_dependencies (base_agent.py line 431): lower-case, spaces to
underscores. -/
def normalize (s : String) : String := (s.toLower).replace " " "_"

/-- The match test of resolve_dependencies (base_agent.py lines 429-433):
self.agents.get(eval_agent_id) is truthy and the normalized dependency
name occurs as a substring of the normalized sub_parameter. -/
def dep_match {α : Type} (agents : List AgentDef) (dep : String) (entry : String × α) : Bool :=
  match agents.find? (fun ag => ag.agent_id == entry.1) with
  | some ea => decide ((normalize dep).toList <:+: (normalize ea.sub_parameter).toList)
  | none => false

/-- AgentCollaborationManager.resolve_dependencies
(base_agent.py lines 422-435): self.agents[agent_id] raising KeyError is
modelled by none; for each declared dependency the loop records the
first matching completed evaluation (then breaks), keyed by the
dependency's own name; dependencies without a match are skipped. -/
def resolve_dependencies {α : Type} (agents : List AgentDef) (agent_id : String)
    (completed : List (String × α)) : Option (List (String × α)) :=
  (agents.find? (fun ag => ag.agent_id == agent_id)).map (fun agent =>
    agent.dependencies.filterMap (fun dep =>
      (completed.find? (dep_match agents dep)).map (fun e => (dep, e.2))))

/-- C2 counterexample registry: the agent evaluating "Market Size" itself
declares a dependency, and a second agent depends on "Market Size". -/
def c2agents : List AgentDef :=
  [⟨"market_size_agent", "Market Size", ["Team Experience"]⟩,
   ⟨"competition_agent", "Competition", ["Market Size"]⟩]

end Collaboration

namespace Integration

/-- A value stored in a legacy result dictionary. Contents the claims do
not inspect — the nested evaluated-data dict, the rendered HTML report,
lists of insights — are carried as opaque tags (the spec places report
rendering out of scope). -/
inductive ResVal where
  | num (x : ℚ)
  | str (s : String)
  | noneV
  | dictV
  | htmlV
  | listV
deriving DecidableEq, Repr

/-- The fields of a crew_ai_validation ValidationResult that
_convert_to_legacy_format reads (src/app/crew_ai_integration.py lines
114-136); the class itself lives in the crew_ai_validation package
outside src. -/
structure ValidationResultRec where
  overall_score : ℚ
  validation_outcome : String
  total_processing_time : ℚ
  total_agents_consulted : ℕ
  consensus_level : ℚ
  validation_id : String
  timestamp : String
deriving DecidableEq, Repr

/-- PragatiCrewAIValidator._convert_to_legacy_format
(crew_ai_integration.py lines 114-136). -/
def convert_to_legacy_format (v : ValidationResultRec) : List (String × ResVal) :=
  [("overall_score", .num v.overall_score),
   ("validation_outcome", .str v.validation_outcome),
   ("evaluated_data", .dictV),
   ("html_report", .htmlV),
   ("error", .noneV),
   ("processing_time", .num v.total_processing_time),
   ("api_calls_made", .num v.total_agents_consulted),
   ("consensus_level", .num v.consensus_level),
   ("collaboration_insights", .listV),
   ("cluster_scores", .dictV),
   ("validation_id", .str v.validation_id),
   ("timestamp", .str v.timestamp)]

/-- PragatiCrewAIValidator._create_fallback_result
(crew_ai_integration.py lines 533-543). -/
def create_fallback_result (err : String) : List (String × ResVal) :=
  [("overall_score", .num 3),
   ("validation_outcome", .str "MODERATE"),
   ("evaluated_data", .dictV),
   ("html_report", .htmlV),
   ("error", .str err),
   ("processing_time", .num 0),
   ("api_calls_made", .num 0)]

/-- The dictionary returned by the except branch of the module-level
validate_idea (crew_ai_integration.py lines 600-606). -/
def module_fallback (err : String) : List (String × ResVal) :=
  [("overall_score", .num 3),
   ("validation_outcome", .str "ERROR"),
   ("evaluated_data", .dictV),
   ("html_report", .htmlV),
   ("error", .str err)]

/-- How one call through the module-level validate_idea can go
(crew_ai_integration.py lines 575-606): the orchestration returns a
ValidationResult; or an exception is raised inside
PragatiCrewAIValidator.validate_idea and caught there (lines 110-112);
or an exception is raised before that — in get_pragati_validator() or
the weight conversion — and caught by the module-level except
(lines 598-606). -/
inductive RunOutcome where
  | ok (v : ValidationResultRec)
  | orchFail (err : String)
  | initFail (err : String)
deriving DecidableEq, Repr

/-- The module-level validate_idea (crew_ai_integration.py lines
575-606): total over the run outcome — every internal failure is caught
at one of the two except sites and turned into a fallback dictionary. -/
def validate_idea : RunOutcome → List (String × ResVal)
  | .ok v => convert_to_legacy_format v
  | .orchFail e => create_fallback_result e
  | .initFail e => module_fallback e

/-- The documented result-schema keys: exactly the keys of the success
dictionary built by _convert_to_legacy_format. -/
def legacy_schema_keys : List String :=
  ["overall_score", "validation_outcome", "evaluated_data", "html_report", "error",
   "processing_time", "api_calls_made", "consensus_level", "collaboration_insights",
   "cluster_scores", "validation_id", "timestamp"]

/-- The per-cluster status classification inlined in
PragatiCrewAIValidator._generate_cluster_breakdown_html
(src/app/crew_ai_integration.py line 283). -/
def cluster_status_class (score : ℚ) : String :=
  if score ≥ 4 then "excellent"
  else if score ≥ 3 then "good"
  else if score ≥ 2 then "moderate"
  else "poor"

end Integration

namespace DatabaseManager

/-- DatabaseManager._assess_overall_risk_level
(src/app/database_manager.py lines 422-431). -/
def assess_overall_risk_level (overall_score : ℚ) : String :=
  if overall_score ≥ 4 then "Low Risk"
  else if overall_score ≥ 3 then "Moderate Risk"
  else if overall_score ≥ 2 then "High Risk"
  else "Very High Risk"

end DatabaseManager

end Pragati

namespace Pragati

open BaseAgent

theorem clamp_mem (lo hi x : ℚ) (h : lo ≤ hi) : lo ≤ clamp lo hi x ∧ clamp lo hi x ≤ hi := by
  unfold clamp
  constructor
  · exact le_max_left lo _
  · exact max_le h (min_le_left hi x)

theorem fallback_mem (sp : String) :
    1 ≤ (create_fallback_result sp).score ∧ (create_fallback_result sp).score ≤ 5 ∧
    0 ≤ (create_fallback_result sp).confidence_level ∧
    (create_fallback_result sp).confidence_level ≤ 1 := by
  simp [create_fallback_result]
  norm_num

theorem standardize_mem (sp : String) (r : RawEval) :
    1 ≤ (standardize sp r).score ∧ (standardize sp r).score ≤ 5 ∧
    0 ≤ (standardize sp r).confidence_level ∧ (standardize sp r).confidence_level ≤ 1 := by
  unfold standardize
  rcases hs : (r.score.getD (pyNum 3)).toFloat with _ | s <;>
    rcases hc : (r.confidence_level.getD (pyNum (7/10))).toFloat with _ | c <;>
    simp only []
  · exact ⟨(fallback_mem sp).1, (fallback_mem sp).2.1, (fallback_mem sp).2.2.1, (fallback_mem sp).2.2.2⟩
  · exact ⟨(fallback_mem sp).1, (fallback_mem sp).2.1, (fallback_mem sp).2.2.1, (fallback_mem sp).2.2.2⟩
  · exact ⟨(fallback_mem sp).1, (fallback_mem sp).2.1, (fallback_mem sp).2.2.1, (fallback_mem sp).2.2.2⟩
  · refine ⟨(clamp_mem 1 5 s (by norm_num)).1, (clamp_mem 1 5 s (by norm_num)).2,
      (clamp_mem 0 1 c (by norm_num)).1, (clamp_mem 0 1 c (by norm_num)).2⟩

/-- C1: every standardized evaluation returned by validate_output has its
score in [1.0, 5.0] and its confidence_level in [0.0, 1.0], and whenever
the raw score field holds a number s the returned score is exactly
max(1, min(5, s)) — the clamp of s to the nearest bound. -/
theorem validate_output_ranges (sp : String) (o : RawOutput) :
    (1 ≤ (validate_output sp o).score ∧ (validate_output sp o).score ≤ 5 ∧
     0 ≤ (validate_output sp o).confidence_level ∧
     (validate_output sp o).confidence_level ≤ 1) ∧
    (∀ r s c, o = RawOutput.dict r → r.score = some (pyNum s) →
      r.confidence_level = some (pyNum c) →
      (validate_output sp o).score = max 1 (min 5 s)) := by
  constructor
  · cases o with
    | dict r => exact standardize_mem sp r
    | text tok expl =>
      rcases h : parse_text_output sp tok expl with _ | r
      · simpa only [validate_output, h] using
          ⟨(fallback_mem sp).1, (fallback_mem sp).2.1, (fallback_mem sp).2.2.1, (fallback_mem sp).2.2.2⟩
      · simpa only [validate_output, h] using standardize_mem sp r
    | malformed =>
      exact ⟨(fallback_mem sp).1, (fallback_mem sp).2.1, (fallback_mem sp).2.2.1, (fallback_mem sp).2.2.2⟩
  · intro r s c ho hs hc
    subst ho
    simp only [validate_output, standardize, hs, hc, Option.getD_some, pyNum, clamp]

/-- Witness for C1 at a concrete out-of-range raw score 7.2: the
standardized score is the nearest bound 5. -/
theorem validate_output_ranges_witness :
    (1 ≤ (validate_output "Market Size" (RawOutput.dict ⟨some (pyNum (36/5)), some (pyNum (9/10)), none⟩)).score ∧
     (validate_output "Market Size" (RawOutput.dict ⟨some (pyNum (36/5)), some (pyNum (9/10)), none⟩)).score ≤ 5 ∧
     0 ≤ (validate_output "Market Size" (RawOutput.dict ⟨some (pyNum (36/5)), some (pyNum (9/10)), none⟩)).confidence_level ∧
     (validate_output "Market Size" (RawOutput.dict ⟨some (pyNum (36/5)), some (pyNum (9/10)), none⟩)).confidence_level ≤ 1) ∧
    (∀ r s c, (RawOutput.dict ⟨some (pyNum (36/5)), some (pyNum (9/10)), none⟩ : RawOutput) = RawOutput.dict r →
      r.score = some (pyNum s) → r.confidence_level = some (pyNum c) →
      (validate_output "Market Size" (RawOutput.dict ⟨some (pyNum (36/5)), some (pyNum (9/10)), none⟩)).score = max 1 (min 5 s)) :=
  validate_output_ranges "Market Size" (RawOutput.dict ⟨some (pyNum (36/5)), some (pyNum (9/10)), none⟩)

/-- C4: on every malformed evaluator output, validate_output returns (it
never raises — it is a total function) the fallback evaluation, whose
score is exactly 3.0, whose confidence is exactly 0.5, and whose
explanation notes the processing failure. -/
theorem validate_output_malformed_fallback (sp : String) (o : RawOutput)
    (h : malformedOutput o) :
    validate_output sp o = create_fallback_result sp ∧
    (validate_output sp o).score = 3 ∧
    (validate_output sp o).confidence_level = 1/2 ∧
    (validate_output sp o).explanation =
      "Fallback evaluation for " ++ sp ++ " due to processing error" := by
  have hmain : validate_output sp o = create_fallback_result sp := by
    cases o with
    | dict r =>
      simp only [malformedOutput] at h
      rcases h with h | h
      · simp only [validate_output, standardize, h]
      · simp only [validate_output, standardize, h]
        rcases hs : (r.score.getD (pyNum 3)).toFloat with _ | s <;> rfl
    | text tok expl =>
      simp only [malformedOutput] at h
      rcases h with ⟨v, htok, hv⟩
      simp only [validate_output, parse_text_output, htok, hv]
    | malformed => rfl
  exact ⟨hmain, by rw [hmain]; rfl, by rw [hmain]; rfl, by rw [hmain]; rfl⟩

/-- Witness for C4 at score = "not a number": the fallback with score 3.0
and confidence 0.5 is returned. -/
theorem validate_output_malformed_fallback_witness :
    validate_output "Team Experience" (RawOutput.dict ⟨some pyBadStr, none, none⟩) =
      create_fallback_result "Team Experience" ∧
    (validate_output "Team Experience" (RawOutput.dict ⟨some pyBadStr, none, none⟩)).score = 3 ∧
    (validate_output "Team Experience" (RawOutput.dict ⟨some pyBadStr, none, none⟩)).confidence_level = 1/2 ∧
    (validate_output "Team Experience" (RawOutput.dict ⟨some pyBadStr, none, none⟩)).explanation =
      "Fallback evaluation for " ++ "Team Experience" ++ " due to processing error" :=
  validate_output_malformed_fallback "Team Experience"
    (RawOutput.dict ⟨some pyBadStr, none, none⟩) (Or.inl rfl)

open DataProcessor

theorem mean_bounds (l : List ℚ) (a b : ℚ) (hne : l ≠ []) (h : ∀ x ∈ l, a ≤ x ∧ x ≤ b) :
    a ≤ l.sum / (l.length : ℚ) ∧ l.sum / (l.length : ℚ) ≤ b := by
  have hlen : 0 < (l.length : ℚ) := by exact_mod_cast List.length_pos.mpr hne
  constructor
  · rw [le_div_iff₀ hlen]
    have := List.card_nsmul_le_sum l a (fun x hx => (h x hx).1)
    rwa [nsmul_eq_mul, mul_comm] at this
  · rw [div_le_iff₀ hlen]
    have := List.sum_le_card_nsmul l b (fun x hx => (h x hx).2)
    rwa [nsmul_eq_mul, mul_comm] at this

theorem calculate_cluster_scores_elim {convs : List Conv} {c : String} {s : ℚ}
    (h : (c, s) ∈ calculate_cluster_scores convs) :
    cluster_members convs c ≠ [] ∧
    s = ((cluster_members convs c).map (·.score)).sum /
      ((cluster_members convs c).length : ℚ) := by
  unfold calculate_cluster_scores at h
  rcases List.mem_map.mp h with ⟨c', hc', heq⟩
  rw [Prod.mk.injEq] at heq
  obtain ⟨rfl, hs⟩ := heq
  refine ⟨?_, hs.symm⟩
  have hc'' : c' ∈ convs.map (·.cluster) := List.mem_dedup.mp hc'
  rcases List.mem_map.mp hc'' with ⟨conv, hconv, hcl⟩
  intro hnil
  have : conv ∈ cluster_members convs c' := by
    apply List.mem_filter.mpr
    exact ⟨hconv, by rw [hcl]; exact beq_iff_eq.mpr rfl⟩
  rw [hnil] at this
  exact List.not_mem_nil conv this

theorem cluster_members_subset {convs : List Conv} {c : String} {x : Conv}
    (h : x ∈ cluster_members convs c) : x ∈ convs :=
  (List.mem_filter.mp h).1

/-- C3 counterexample: a cluster "X" with two members scoring 1 and 5 and
registry weights 3 and 1. The source computes the unweighted mean 3,
while the spec's weighted formula gives 2. -/
theorem cluster_score_unweighted_counterexample :
    calculate_cluster_scores c3convs = [("X", 3)] ∧
    cluster_score_spec c3w c3convs "X" = 2 ∧
    ((3 : ℚ) ≠ 2) := by
  refine ⟨?_, ?_, by norm_num⟩
  · norm_num [calculate_cluster_scores, cluster_members, c3convs, List.dedup]
  · norm_num [cluster_score_spec, cluster_members, c3convs, c3w]
    rw [if_neg (by decide), if_neg (by decide)]
    norm_num

/-- C3 amended: calculate_cluster_scores assigns each cluster the plain
unweighted arithmetic mean of its members' scores; this agrees with the
spec's weighted formula only in the degenerate case where the registry
assigns every conversation the same non-zero weight. -/
theorem calculate_cluster_scores_unweighted_mean (convs : List Conv) (w : Conv → ℚ)
    (k : ℚ) (hk : k ≠ 0) (hw : ∀ x, w x = k) (c : String) (s : ℚ)
    (hmem : (c, s) ∈ calculate_cluster_scores convs) :
    s = ((cluster_members convs c).map (·.score)).sum /
      ((cluster_members convs c).length : ℚ) ∧
    s = cluster_score_spec w convs c := by
  obtain ⟨hne, hs⟩ := calculate_cluster_scores_elim hmem
  refine ⟨hs, ?_⟩
  rw [hs]
  unfold cluster_score_spec
  have h1 : (cluster_members convs c).map (fun x => x.score * w x) =
      (cluster_members convs c).map (fun x => x.score * k) :=
    List.map_congr_left (fun a _ => by rw [hw])
  have h2 : (cluster_members convs c).map w =
      (cluster_members convs c).map (Function.const Conv k) :=
    List.map_congr_left (fun a _ => by rw [hw]; rfl)
  rw [h1, List.sum_map_mul_right, h2, List.map_const, List.sum_replicate, nsmul_eq_mul]
  exact (mul_div_mul_right _ _ hk).symm

/-- Witness for the amended C3 at the two-member cluster with equal
weights 1: the computed score 3 is both the unweighted mean and the
weighted formula's value. -/
theorem calculate_cluster_scores_unweighted_mean_witness :
    (3 : ℚ) = ((cluster_members c3convs "X").map (·.score)).sum /
      ((cluster_members c3convs "X").length : ℚ) ∧
    (3 : ℚ) = cluster_score_spec (fun _ => 1) c3convs "X" :=
  calculate_cluster_scores_unweighted_mean c3convs (fun _ => 1) 1 (by norm_num)
    (fun _ => rfl) "X" 3
    (by norm_num [calculate_cluster_scores, cluster_members, c3convs, List.dedup])

/-- C5 counterexample: a conversation whose recorded score is not
parseable is coerced to 0 by extract_all_agent_conversations, and the
resulting overall score is 0, outside [1.0, 5.0]. -/
theorem overall_score_coerced_counterexample :
    overall_score_spec c5convs = 0 ∧ ¬ (1 ≤ overall_score_spec c5convs) := by
  have h : overall_score_spec c5convs = 0 := by
    norm_num [overall_score_spec, calculate_cluster_scores, cluster_members, c5convs,
      extract_score, pyBadStr, List.dedup]
  exact ⟨h, by rw [h]; norm_num⟩

/-- C5 amended: the overall score stays within [1.0, 5.0] provided every
conversation's score already lies in [1.0, 5.0]; coerced or defaulted
scores enter as 0 and break the bound. -/
theorem overall_score_in_range_of_valid_scores (convs : List Conv) (hne : convs ≠ [])
    (h : ∀ x ∈ convs, 1 ≤ x.score ∧ x.score ≤ 5) :
    1 ≤ overall_score_spec convs ∧ overall_score_spec convs ≤ 5 := by
  unfold overall_score_spec
  have hnil : calculate_cluster_scores convs ≠ [] := by
    unfold calculate_cluster_scores
    simp [List.dedup_eq_nil, hne]
  have hbound : ∀ y ∈ (calculate_cluster_scores convs).map Prod.snd, 1 ≤ y ∧ y ≤ 5 := by
    intro y hy
    rcases List.mem_map.mp hy with ⟨⟨c, s⟩, hmem, rfl⟩
    obtain ⟨hne', hs⟩ := calculate_cluster_scores_elim hmem
    rw [hs]
    have hmb := mean_bounds ((cluster_members convs c).map (·.score)) 1 5
      (by simp only [ne_eq, List.map_eq_nil_iff]; exact hne')
      (by intro x hx
          rcases List.mem_map.mp hx with ⟨cv, hcv, rfl⟩
          exact h cv (cluster_members_subset hcv))
    rwa [List.length_map] at hmb
  have hmain := mean_bounds ((calculate_cluster_scores convs).map Prod.snd) 1 5
    (by simpa using hnil) hbound
  rwa [List.length_map] at hmain

/-- Witness for the amended C5: the two-score registry with scores 1 and 5
has an overall score inside [1.0, 5.0]. -/
theorem overall_score_in_range_of_valid_scores_witness :
    1 ≤ overall_score_spec c3convs ∧ overall_score_spec c3convs ≤ 5 :=
  overall_score_in_range_of_valid_scores c3convs (by simp [c3convs])
    (by intro x hx
        simp only [c3convs, List.mem_cons, List.not_mem_nil, or_false] at hx
        rcases hx with rfl | rfl <;> norm_num)

/-- C6 counterexample: a recorded evaluation whose score field is missing,
or present but unparseable, is read back as 0 by
extract_all_agent_conversations — not as the claimed midpoint 3.0. -/
theorem extract_score_default_zero_counterexample :
    extract_score none = 0 ∧ extract_score (some pyBadStr) = 0 ∧ ((0 : ℚ) ≠ 3) := by
  refine ⟨rfl, ?_, by norm_num⟩
  simp [extract_score, pyBadStr]

/-- C6 amended: when normalizing evaluator output, validate_output
defaults a missing score to the midpoint 3.0 and never raises; but when
re-reading recorded evaluations for reporting,
extract_all_agent_conversations coerces a missing or invalid score to 0
(processing continuing in both places). -/
theorem score_default_values (sp : String) (r : BaseAgent.RawEval)
    (hscore : r.score = none) :
    (BaseAgent.validate_output sp (BaseAgent.RawOutput.dict r)).score = 3 ∧
    extract_score none = 0 ∧
    (∀ v : PyVal, v.toFloat = none → extract_score (some v) = 0) := by
  refine ⟨?_, rfl, ?_⟩
  · have h3 : (r.score.getD (pyNum 3)).toFloat = some 3 := by rw [hscore]; rfl
    simp only [BaseAgent.validate_output, BaseAgent.standardize, h3]
    rcases hc : (r.confidence_level.getD (pyNum (7/10))).toFloat with _ | c
    · rfl
    · show clamp 1 5 3 = 3
      norm_num [clamp]
  · intro v hv
    simp [extract_score, hv]

/-- Witness for the amended C6: a dict with no score key standardizes to
score 3.0, while the reporting-side coercion of a missing score is 0. -/
theorem score_default_values_witness :
    (BaseAgent.validate_output "Market Size"
      (BaseAgent.RawOutput.dict ⟨none, none, none⟩)).score = 3 ∧
    extract_score none = 0 ∧
    (∀ v : PyVal, v.toFloat = none → extract_score (some v) = 0) :=
  score_default_values "Market Size" ⟨none, none, none⟩ rfl

/-- C8 counterexample: _get_status classifies on a 0-100 scale, so a score
of exactly 4.0 lands in the bottom band "Poor", not the claimed top band. -/
theorem get_status_scale_counterexample :
    get_status 4 = "Poor" ∧ ("Poor" : String) ≠ "Excellent" := by
  constructor
  · norm_num [get_status]
  · decide

/-- C8 amended: the 5-point-scale classifiers — the cluster-breakdown HTML
status and the database risk level — use lower-bound-inclusive thresholds
at 4.0 / 3.0 / 2.0; but _get_status operates on a 0-100 scale with
thresholds 80 / 60 / 40 / 20, so every score in the documented range
[1.0, 5.0] classifies there as "Poor". -/
theorem classification_thresholds (s : ℚ) :
    ((4 ≤ s → Integration.cluster_status_class s = "excellent") ∧
     (3 ≤ s → s < 4 → Integration.cluster_status_class s = "good") ∧
     (2 ≤ s → s < 3 → Integration.cluster_status_class s = "moderate") ∧
     (s < 2 → Integration.cluster_status_class s = "poor")) ∧
    ((4 ≤ s → DatabaseManager.assess_overall_risk_level s = "Low Risk") ∧
     (3 ≤ s → s < 4 → DatabaseManager.assess_overall_risk_level s = "Moderate Risk") ∧
     (2 ≤ s → s < 3 → DatabaseManager.assess_overall_risk_level s = "High Risk") ∧
     (s < 2 → DatabaseManager.assess_overall_risk_level s = "Very High Risk")) ∧
    ((80 ≤ s → get_status s = "Excellent") ∧
     (60 ≤ s → s < 80 → get_status s = "Good") ∧
     (40 ≤ s → s < 60 → get_status s = "Moderate") ∧
     (20 ≤ s → s < 40 → get_status s = "Weak") ∧
     (s < 20 → get_status s = "Poor")) ∧
    (1 ≤ s → s ≤ 5 → get_status s = "Poor") := by
  unfold Integration.cluster_status_class DatabaseManager.assess_overall_risk_level get_status
  refine ⟨⟨?_, ?_, ?_, ?_⟩, ⟨?_, ?_, ?_, ?_⟩, ⟨?_, ?_, ?_, ?_, ?_⟩, ?_⟩ <;>
    intros <;> split_ifs <;> first | rfl | linarith

/-- Witness for the amended C8 at score 4.0: "excellent" and "Low Risk" on
the 5-point classifiers, "Poor" from _get_status. -/
theorem classification_thresholds_witness :
    Integration.cluster_status_class 4 = "excellent" ∧
    DatabaseManager.assess_overall_risk_level 4 = "Low Risk" ∧
    get_status 4 = "Poor" :=
  ⟨(classification_thresholds 4).1.1 (by norm_num),
   (classification_thresholds 4).2.1.1 (by norm_num),
   (classification_thresholds 4).2.2.2 (by norm_num) (by norm_num)⟩

/-- C10: over conversations whose scores all lie in the documented range
[1.0, 5.0], extract_strengths_and_weaknesses returns no strengths (the
strength threshold is 70), includes every weakness of every conversation
(the weakness threshold is 60), and tags every weakness with severity
"Critical" (the Critical threshold is 30). -/
theorem strengths_weaknesses_thresholds (convs : List Conv)
    (h : ∀ c ∈ convs, 1 ≤ c.score ∧ c.score ≤ 5) :
    (extract_strengths_and_weaknesses convs).1 = [] ∧
    (∀ c ∈ convs, ∀ t ∈ c.weaknesses,
      ∃ wk ∈ (extract_strengths_and_weaknesses convs).2,
        wk.text = t ∧ wk.score = c.score ∧ wk.severity = "Critical") ∧
    (∀ wk ∈ (extract_strengths_and_weaknesses convs).2, wk.severity = "Critical") := by
  have hsev : ∀ c ∈ convs, get_severity c.score = "Critical" := by
    intro c hc
    have hb := h c hc
    unfold get_severity
    rw [if_pos (by linarith [hb.2])]
  have hwknz : ∀ c ∈ convs, conv_weaknesses c =
      c.weaknesses.map (fun t => ⟨t, c.cluster, c.sub_parameter, c.score, get_severity c.score⟩) := by
    intro c hc
    have hb := h c hc
    unfold conv_weaknesses
    rw [if_pos (by linarith [hb.2])]
  refine ⟨?_, ?_, ?_⟩
  · have hstr : convs.flatMap conv_strengths = [] := by
      rw [List.flatMap_eq_nil_iff]
      intro c hc
      have hb := h c hc
      unfold conv_strengths
      rw [if_neg (by intro hge; linarith [hb.2])]
    simp only [extract_strengths_and_weaknesses, hstr, List.mergeSort_nil]
  · intro c hc t ht
    refine ⟨⟨t, c.cluster, c.sub_parameter, c.score, get_severity c.score⟩, ?_, rfl, rfl, hsev c hc⟩
    simp only [extract_strengths_and_weaknesses, List.mem_mergeSort, List.mem_flatMap]
    exact ⟨c, hc, by rw [hwknz c hc]; exact List.mem_map_of_mem _ ht⟩
  · intro wk hmem
    simp only [extract_strengths_and_weaknesses, List.mem_mergeSort, List.mem_flatMap] at hmem
    rcases hmem with ⟨c, hc, hin⟩
    rw [hwknz c hc] at hin
    rcases List.mem_map.mp hin with ⟨t, ht, rfl⟩
    exact hsev c hc

/-- Witness for C10 at a single conversation scoring 3.0 with one strength
and one weakness: no strengths survive, the weakness appears as Critical. -/
theorem strengths_weaknesses_thresholds_witness :
    (extract_strengths_and_weaknesses c10convs).1 = [] ∧
    (∀ c ∈ c10convs, ∀ t ∈ c.weaknesses,
      ∃ wk ∈ (extract_strengths_and_weaknesses c10convs).2,
        wk.text = t ∧ wk.score = c.score ∧ wk.severity = "Critical") ∧
    (∀ wk ∈ (extract_strengths_and_weaknesses c10convs).2, wk.severity = "Critical") :=
  strengths_weaknesses_thresholds c10convs
    (by intro c hc
        simp only [c10convs, List.mem_cons, List.not_mem_nil, or_false] at hc
        subst hc
        norm_num)

open Collaboration in
/-- C2 counterexample: the "Market Size" agent itself declares a
dependency, so it lands in batch 1 together with the agent that depends
on "Market Size" — the same batch, not a strictly earlier one. -/
theorem execution_order_same_batch_counterexample :
    (c2agents.map (·.sub_parameter) = ["Market Size", "Competition"]) ∧
    (c2agents.map (·.dependencies) = [["Team Experience"], ["Market Size"]]) ∧
    get_execution_order c2agents = [[], ["market_size_agent", "competition_agent"]] ∧
    batchIndex (get_execution_order c2agents) "competition_agent" = some 1 ∧
    batchIndex (get_execution_order c2agents) "market_size_agent" = some 1 := by
  refine ⟨rfl, rfl, rfl, ?_, ?_⟩ <;> decide

open Collaboration in
/-- C2 amended: get_execution_order always produces exactly two batches —
batch 0 the agents with no declared dependencies, batch 1 every agent
with dependencies. Hence an agent is scheduled strictly after the agents
its dependencies name only when those agents have no dependencies of
their own; two agents that both declare dependencies always share
batch 1. -/
theorem execution_order_two_batches (agents : List AgentDef)
    (hnd : (agents.map (·.agent_id)).Nodup) :
    (get_execution_order agents).length = 2 ∧
    (∀ a ∈ agents, a.dependencies = [] →
      batchIndex (get_execution_order agents) a.agent_id = some 0) ∧
    (∀ b ∈ agents, b.dependencies ≠ [] →
      batchIndex (get_execution_order agents) b.agent_id = some 1) := by
  refine ⟨rfl, ?_, ?_⟩
  · intro a ha hdep
    have hmem : a.agent_id ∈ (agents.filter (fun x => x.dependencies.isEmpty)).map (·.agent_id) :=
      List.mem_map.mpr ⟨a, List.mem_filter.mpr ⟨ha, by simp [List.isEmpty_iff, hdep]⟩, rfl⟩
    unfold batchIndex get_execution_order
    rw [List.findIdx?_cons, if_pos (List.elem_iff.mpr hmem)]
  · intro b hb hdep
    have hnot : b.agent_id ∉ (agents.filter (fun x => x.dependencies.isEmpty)).map (·.agent_id) := by
      intro hmem
      rcases List.mem_map.mp hmem with ⟨a, hafil, haid⟩
      have ha : a ∈ agents := (List.mem_filter.mp hafil).1
      have haempty : a.dependencies = [] :=
        List.isEmpty_iff.mp (List.mem_filter.mp hafil).2
      have : a = b := List.inj_on_of_nodup_map hnd ha hb haid
      exact hdep (this ▸ haempty)
    have hmem1 : b.agent_id ∈ (agents.filter (fun x => !x.dependencies.isEmpty)).map (·.agent_id) :=
      List.mem_map.mpr ⟨b, List.mem_filter.mpr ⟨hb, by
        simp only [Bool.not_eq_true', ← Bool.not_eq_true, List.isEmpty_iff]
        simpa using hdep⟩, rfl⟩
    unfold batchIndex get_execution_order
    rw [List.findIdx?_cons, if_neg (by
      intro hcontra
      exact hnot (List.elem_iff.mp hcontra))]
    rw [List.findIdx?_cons, if_pos (List.elem_iff.mpr hmem1)]

open Collaboration in
/-- Witness for the amended C2: in the counterexample registry extended
with a dependency-free agent, the dependency-free agent is scheduled in
batch 0 and both dependent agents in batch 1. -/
theorem execution_order_two_batches_witness :
    (get_execution_order (⟨"team_agent", "Team Experience", []⟩ :: c2agents)).length = 2 ∧
    (∀ a ∈ (⟨"team_agent", "Team Experience", []⟩ :: c2agents), a.dependencies = [] →
      batchIndex (get_execution_order (⟨"team_agent", "Team Experience", []⟩ :: c2agents)) a.agent_id = some 0) ∧
    (∀ b ∈ (⟨"team_agent", "Team Experience", []⟩ :: c2agents), b.dependencies ≠ [] →
      batchIndex (get_execution_order (⟨"team_agent", "Team Experience", []⟩ :: c2agents)) b.agent_id = some 1) :=
  execution_order_two_batches (⟨"team_agent", "Team Experience", []⟩ :: c2agents) (by decide)

theorem map_fst_filterMap_sublist {α β : Type} (F : α → Option (α × β))
    (hF : ∀ a p, F a = some p → p.1 = a) (l : List α) :
    ((l.filterMap F).map Prod.fst).Sublist l := by
  induction l with
  | nil => simp
  | cons x xs ih =>
    rcases hf : F x with _ | p
    · rw [List.filterMap_cons_none hf]
      exact ih.cons x
    · rw [List.filterMap_cons_some hf, List.map_cons, hF x p hf]
      exact ih.cons₂ x

open Collaboration in
/-- C7: for every agent present in the registry, resolve_dependencies
returns (never raises or blocks); each returned entry is keyed by one of
the agent's declared dependency names and carries the result of some
completed evaluation whose agent's normalized sub_parameter contains the
normalized dependency name as a substring (lower-cased, spaces mapped to
underscores); the returned keys form a sublist of the declared
dependency list — hence at most one entry per dependency name — and a
dependency with no matching completed evaluation is simply omitted. -/
theorem resolve_dependencies_props {α : Type} (agents : List AgentDef)
    (agent_id : String) (completed : List (String × α)) (ag : AgentDef)
    (hfind : agents.find? (fun x => x.agent_id == agent_id) = some ag) :
    ∃ rs, resolve_dependencies agents agent_id completed = some rs ∧
      (∀ p ∈ rs, p.1 ∈ ag.dependencies ∧
        ∃ e ∈ completed, ∃ info, agents.find? (fun x => x.agent_id == e.1) = some info ∧
          (normalize p.1).toList <:+: (normalize info.sub_parameter).toList ∧
          p.2 = e.2) ∧
      ((rs.map Prod.fst).Sublist ag.dependencies) ∧
      (∀ dep ∈ ag.dependencies, completed.find? (dep_match agents dep) = none →
        dep ∉ rs.map Prod.fst) := by
  refine ⟨ag.dependencies.filterMap (fun dep =>
      (completed.find? (dep_match agents dep)).map (fun e => (dep, e.2))), ?_, ?_, ?_, ?_⟩
  · unfold resolve_dependencies
    rw [hfind]
    rfl
  · intro p hp
    rcases List.mem_filterMap.mp hp with ⟨dep, hdep, hsome⟩
    rcases Option.map_eq_some'.mp hsome with ⟨e, hfinde, hpe⟩
    have hfst : p.1 = dep := by rw [← hpe]
    have hsnd : p.2 = e.2 := by rw [← hpe]
    have hmatch : dep_match agents dep e = true := List.find?_some hfinde
    have hecomp : e ∈ completed := List.mem_of_find?_eq_some hfinde
    unfold dep_match at hmatch
    rcases hinfo : agents.find? (fun x => x.agent_id == e.1) with _ | info
    · rw [hinfo] at hmatch
      exact absurd hmatch (by simp)
    · rw [hinfo] at hmatch
      refine ⟨hfst ▸ hdep, e, hecomp, info, hinfo, ?_, hsnd⟩
      rw [hfst]
      exact of_decide_eq_true hmatch
  · exact map_fst_filterMap_sublist _ (fun dep p hp => by
      rcases Option.map_eq_some'.mp hp with ⟨e, _, hpe⟩
      rw [← hpe]) ag.dependencies
  · intro dep hdep hnone hmem
    rcases List.mem_map.mp hmem with ⟨p, hp, hfst⟩
    rcases List.mem_filterMap.mp hp with ⟨dep', hdep', hsome⟩
    rcases Option.map_eq_some'.mp hsome with ⟨e, hfinde, hpe⟩
    have : dep' = dep := by rw [← hfst, ← hpe]
    rw [this] at hfinde
    rw [hnone] at hfinde
    exact Option.noConfusion hfinde

open Collaboration in
/-- Witness for C7: resolving "competition_agent" against one completed
evaluation recorded under "market_size_agent" (whose sub_parameter is
"Market Size") matches the dependency "Market Size". -/
theorem resolve_dependencies_props_witness :
    ∃ rs, resolve_dependencies c2agents "competition_agent"
        [("market_size_agent", "ms evaluation")] = some rs ∧
      (∀ p ∈ rs, p.1 ∈ ["Market Size"] ∧
        ∃ e ∈ [("market_size_agent", "ms evaluation")], ∃ info,
          c2agents.find? (fun x => x.agent_id == e.1) = some info ∧
          (normalize p.1).toList <:+: (normalize info.sub_parameter).toList ∧
          p.2 = e.2) ∧
      ((rs.map Prod.fst).Sublist ["Market Size"]) ∧
      (∀ dep ∈ ["Market Size"],
        List.find? (dep_match c2agents dep) [("market_size_agent", "ms evaluation")] = none →
        dep ∉ rs.map Prod.fst) :=
  resolve_dependencies_props c2agents "competition_agent"
    [("market_size_agent", "ms evaluation")]
    ⟨"competition_agent", "Competition", ["Market Size"]⟩ (by decide)

open Integration in
/-- C9 counterexample: when initialization fails (for example the API key
is missing), the module-level validate_idea returns a fallback with
overall_score 3.0 whose keys are only overall_score, validation_outcome,
evaluated_data, html_report and error — processing_time, consensus_level
and cluster_scores are absent, so the fallback is not schema-complete. -/
theorem validate_idea_fallback_missing_keys :
    ((validate_idea (.initFail "api key missing")).map Prod.fst =
      ["overall_score", "validation_outcome", "evaluated_data", "html_report", "error"]) ∧
    (validate_idea (.initFail "api key missing")).lookup "overall_score" =
      some (ResVal.num 3) ∧
    "consensus_level" ∉ (validate_idea (.initFail "api key missing")).map Prod.fst ∧
    "cluster_scores" ∉ (validate_idea (.initFail "api key missing")).map Prod.fst ∧
    "processing_time" ∉ (validate_idea (.initFail "api key missing")).map Prod.fst := by
  refine ⟨rfl, rfl, ?_, ?_, ?_⟩ <;> decide

open Integration in
/-- C9 amended: validate_idea is total over the run outcome (no internal
exception propagates) and every returned dictionary has the core keys;
on the success path all twelve documented schema keys are present with
no extras, while on either failure path the fallback carries
overall_score exactly 3.0 but omits consensus_level and cluster_scores
(the inner fallback keeps processing_time; the module-level one drops it
too). -/
theorem validate_idea_total_fallback (o : RunOutcome) :
    ("overall_score" ∈ (validate_idea o).map Prod.fst ∧
     "validation_outcome" ∈ (validate_idea o).map Prod.fst ∧
     "evaluated_data" ∈ (validate_idea o).map Prod.fst ∧
     "html_report" ∈ (validate_idea o).map Prod.fst ∧
     "error" ∈ (validate_idea o).map Prod.fst) ∧
    (∀ e, o = .initFail e ∨ o = .orchFail e →
      (validate_idea o).lookup "overall_score" = some (ResVal.num 3) ∧
      "consensus_level" ∉ (validate_idea o).map Prod.fst ∧
      "cluster_scores" ∉ (validate_idea o).map Prod.fst) ∧
    (∀ v, o = .ok v → (validate_idea o).map Prod.fst = legacy_schema_keys) := by
  have hok : ∀ v, (validate_idea (RunOutcome.ok v)).map Prod.fst = legacy_schema_keys :=
    fun _ => rfl
  have horch : ∀ e, (validate_idea (RunOutcome.orchFail e)).map Prod.fst =
      ["overall_score", "validation_outcome", "evaluated_data", "html_report", "error",
       "processing_time", "api_calls_made"] := fun _ => rfl
  have hinit : ∀ e, (validate_idea (RunOutcome.initFail e)).map Prod.fst =
      ["overall_score", "validation_outcome", "evaluated_data", "html_report", "error"] :=
    fun _ => rfl
  refine ⟨?_, ?_, ?_⟩
  · rcases o with v | e | e
    · rw [hok v]; decide
    · rw [horch e]; decide
    · rw [hinit e]; decide
  · intro e he
    rcases he with rfl | rfl
    · refine ⟨rfl, ?_, ?_⟩ <;> · rw [hinit e]; decide
    · refine ⟨rfl, ?_, ?_⟩ <;> · rw [horch e]; decide
  · rintro v rfl
    rfl

open Integration in
/-- Witness for the amended C9 on the inner-failure path: the fallback has
overall_score 3.0 and lacks consensus_level and cluster_scores. -/
theorem validate_idea_total_fallback_witness :
    ("overall_score" ∈ (validate_idea (.orchFail "timeout")).map Prod.fst ∧
     "validation_outcome" ∈ (validate_idea (.orchFail "timeout")).map Prod.fst ∧
     "evaluated_data" ∈ (validate_idea (.orchFail "timeout")).map Prod.fst ∧
     "html_report" ∈ (validate_idea (.orchFail "timeout")).map Prod.fst ∧
     "error" ∈ (validate_idea (.orchFail "timeout")).map Prod.fst) ∧
    (∀ e, (RunOutcome.orchFail "timeout") = RunOutcome.initFail e ∨
        (RunOutcome.orchFail "timeout") = RunOutcome.orchFail e →
      (validate_idea (.orchFail "timeout")).lookup "overall_score" = some (ResVal.num 3) ∧
      "consensus_level" ∉ (validate_idea (.orchFail "timeout")).map Prod.fst ∧
      "cluster_scores" ∉ (validate_idea (.orchFail "timeout")).map Prod.fst) ∧
    (∀ v, (RunOutcome.orchFail "timeout") = RunOutcome.ok v →
      (validate_idea (.orchFail "timeout")).map Prod.fst = legacy_schema_keys) :=
  validate_idea_total_fallback (.orchFail "timeout")

end Pragati
